import Mathlib

/-!
Verification of the vLLM CPU detection tool (`cpu_detect/vllm_cpu_detect.py`).

The script probes the host CPU for instruction-set feature flags, stores them
in a Python `dict` mapping flag names to booleans, and recommends one of five
prebuilt package variants.  We embed the feature dictionary as an association
list `List (String × Bool)` with Python `dict` semantics (`get` with a falsy
default, assignment updating in place or appending), and each detection branch
as a pure function of the external inputs it consults (`/proc/cpuinfo` text,
`lscpu` / `sysctl -a` results, each an `Option` that is `none` when the source
is unavailable or timed out, and otherwise carries the return code and stdout).
-/

/-- Does the character list `s` start with the pattern `p`?  Building block for
the substring search that models Python's `tok in text`. -/
def startsTok : List Char → List Char → Bool
  | _, [] => true
  | [], _ :: _ => false
  | c :: cs, d :: ds => c = d && startsTok cs ds

/-- Substring search on character lists: does `s` contain `p` contiguously? -/
def hasTokAux : List Char → List Char → Bool
  | [], p => p.isEmpty
  | c :: cs, p => startsTok (c :: cs) p || hasTokAux cs p

/-- Python's `tok in text` substring test for strings. -/
def hasTok (s t : String) : Bool := hasTokAux s.data t.data

/-- Python's `str.lower()` (ASCII range, which covers every token the tool
searches for), applied characterwise. -/
def strLower (s : String) : String := ⟨s.data.map Char.toLower⟩

/-- The feature dictionary `self.features`: a Python `dict` from flag names to
booleans, embedded as an association list. -/
abbrev FeatureDict : Type := List (String × Bool)

/-- Python `self.features.get(key)` used in boolean position: a missing key
gives `None`, which is falsy, so the default is `false`. -/
def fget : FeatureDict → String → Bool
  | [], _ => false
  | (k, v) :: rest, key => if k = key then v else fget rest key

/-- Python `features[key] = b`: update the first binding of `key`, or append a
new binding when the key is absent (dict insertion order). -/
def fset : FeatureDict → String → Bool → FeatureDict
  | [], key, b => [(key, b)]
  | (k, v) :: rest, key, b =>
      if k = key then (k, b) :: rest else (k, v) :: fset rest key b

/-- Python `if cond: features[key] = True` — the guarded flag assignment used
by every detection branch. -/
def setIf (c : Bool) (fs : FeatureDict) (key : String) : FeatureDict :=
  if c then fset fs key true else fs

/-- The Linux feature dictionary literal of `_detect_linux`, with the six flag
values abstracted (the source initializes all six to `False`). -/
def mkLinux (f vnni bf16 amx tile int8 : Bool) : FeatureDict :=
  [("avx512f", f), ("avx512_vnni", vnni), ("avx512_bf16", bf16),
   ("amx_bf16", amx), ("amx_tile", tile), ("amx_int8", int8)]

/-- `_detect_linux`'s initial all-false dictionary. -/
def linuxInit : FeatureDict := mkLinux false false false false false false

/-- The six `if tok in cpuinfo` checks of `_detect_linux` over the lowercased
`/proc/cpuinfo` text. -/
def applyCpuinfoChecks (t : String) (fs : FeatureDict) : FeatureDict :=
  let fs := setIf (hasTok t "avx512f") fs "avx512f"
  let fs := setIf (hasTok t "avx512_vnni" || hasTok t "avx512vnni") fs "avx512_vnni"
  let fs := setIf (hasTok t "avx512_bf16" || hasTok t "avx512bf16") fs "avx512_bf16"
  let fs := setIf (hasTok t "amx_bf16") fs "amx_bf16"
  let fs := setIf (hasTok t "amx_tile") fs "amx_tile"
  let fs := setIf (hasTok t "amx_int8") fs "amx_int8"
  fs

/-- The four `if tok in lscpu_output` checks of `_detect_linux` over the
lowercased `lscpu` stdout (note: only four of the six flags are searched). -/
def applyLscpuChecks (t : String) (fs : FeatureDict) : FeatureDict :=
  let fs := setIf (hasTok t "avx512f") fs "avx512f"
  let fs := setIf (hasTok t "avx512_vnni" || hasTok t "avx512vnni") fs "avx512_vnni"
  let fs := setIf (hasTok t "avx512_bf16" || hasTok t "avx512bf16") fs "avx512_bf16"
  let fs := setIf (hasTok t "amx_bf16") fs "amx_bf16"
  fs

/-- `CPUDetector._detect_linux`.  `cpuinfo` is the text of `/proc/cpuinfo`
(`none` on `FileNotFoundError`); `lscpu` is the result of running `lscpu`
(`none` on `TimeoutExpired` / `FileNotFoundError`, otherwise return code and
stdout; the stdout is consulted only when the return code is 0). -/
def detectLinux (cpuinfo : Option String) (lscpu : Option (Int × String)) :
    FeatureDict :=
  let fs := linuxInit
  let fs := match cpuinfo with
    | some txt => applyCpuinfoChecks (strLower txt) fs
    | none => fs
  let fs := match lscpu with
    | some (rc, out) => if rc = 0 then applyLscpuChecks (strLower out) fs else fs
    | none => fs
  fs

/-- The macOS / Windows feature dictionary literal (four flags). -/
def mkMac (f vnni bf16 amx : Bool) : FeatureDict :=
  [("avx512f", f), ("avx512_vnni", vnni), ("avx512_bf16", bf16),
   ("amx_bf16", amx)]

/-- `CPUDetector._detect_macos`.  `sysctl` is the result of running
`sysctl -a` (`none` on timeout / missing command); the only check is
`"avx512" in sysctl_output`, guarded by return code 0. -/
def detectMacos (sysctl : Option (Int × String)) : FeatureDict :=
  let fs := mkMac false false false false
  match sysctl with
  | some (rc, out) =>
      if rc = 0 then setIf (hasTok (strLower out) "avx512") fs "avx512f" else fs
  | none => fs

/-- `CPUDetector._detect_windows`: the flag set is defined but left all
false. -/
def detectWindows : FeatureDict := mkMac false false false false

/-- The external inputs of one run: `platform.system()`, `platform.machine()`,
and the three textual sources the probes may consult. -/
structure Env where
  system : String
  machine : String
  cpuinfo : Option String
  lscpu : Option (Int × String)
  sysctl : Option (Int × String)

/-- `CPUDetector.detect`: dispatch on the OS family; unsupported systems yield
the empty dictionary. -/
def detect (e : Env) : FeatureDict :=
  if e.system = "Linux" then detectLinux e.cpuinfo e.lscpu
  else if e.system = "Darwin" then detectMacos e.sysctl
  else if e.system = "Windows" then detectWindows
  else []

/-- `CPUDetector.recommend_package` as a pure function of the machine string
and the feature dictionary. -/
def recommend_package (machine : String) (features : FeatureDict) : String :=
  if machine = "aarch64" ∨ machine = "arm64" then "vllm-cpu"
  else if machine = "x86_64" then
    if fget features "amx_bf16" && fget features "avx512_bf16"
        && fget features "avx512_vnni" then "vllm-cpu-amxbf16"
    else if fget features "avx512_bf16" && fget features "avx512_vnni" then
      "vllm-cpu-avx512bf16"
    else if fget features "avx512_vnni" then "vllm-cpu-avx512vnni"
    else if fget features "avx512f" then "vllm-cpu-avx512"
    else "vllm-cpu"
  else "vllm-cpu"

/-- `main`'s exit code: `0` when `detector.features` is truthy (a non-empty
dict) or the machine is ARM-family, else `1`.  Note Python dict truthiness is
non-emptiness, regardless of the stored boolean values. -/
def mainExit (e : Env) : Nat :=
  if detect e ≠ [] ∨ e.machine = "aarch64" ∨ e.machine = "arm64" then 0 else 1

/-- Did the `/proc/cpuinfo` source report token `t` (after lowercasing)?
`none` (unreadable source) reports nothing. -/
def ciHas (ci : Option String) (t : String) : Bool :=
  match ci with
  | some s => hasTok (strLower s) t
  | none => false

/-- Did the `lscpu` fallback source report token `t`?  A missing or timed-out
command, or a nonzero return code, reports nothing. -/
def lsHas (ls : Option (Int × String)) (t : String) : Bool :=
  match ls with
  | some (rc, out) => if rc = 0 then hasTok (strLower out) t else false
  | none => false

/-- The conceptual FeatureSet of the specification: one boolean per Linux
feature flag. -/
structure FeatureSet where
  avx512f : Bool
  avx512_vnni : Bool
  avx512_bf16 : Bool
  amx_bf16 : Bool
  amx_tile : Bool
  amx_int8 : Bool
deriving DecidableEq

/-- Modelled from the spec: the flag-wise OR union of two FeatureSets ("a flag
is true if any data source reported it true"); the source performs this merge
implicitly through repeated guarded flag assignments. -/
def FeatureSet.union (a b : FeatureSet) : FeatureSet :=
  ⟨a.avx512f || b.avx512f, a.avx512_vnni || b.avx512_vnni,
   a.avx512_bf16 || b.avx512_bf16, a.amx_bf16 || b.amx_bf16,
   a.amx_tile || b.amx_tile, a.amx_int8 || b.amx_int8⟩

theorem fget_fset (fs : FeatureDict) (k : String) (b : Bool) (q : String) :
    fget (fset fs k b) q = if k = q then b else fget fs q := by
  induction fs with
  | nil =>
      by_cases h : k = q <;> simp [fset, fget, h]
  | cons hd tl ih =>
      obtain ⟨hk, hv⟩ := hd
      by_cases h1 : hk = k
      · subst h1
        by_cases h2 : hk = q <;> simp [fset, fget, h2]
      · by_cases h2 : hk = q
        · subst h2
          have h1s : ¬ k = hk := fun h => h1 h.symm
          simp [fset, fget, h1, h1s]
        · simp [fset, fget, h1, h2, ih]

theorem fget_setIf (c : Bool) (fs : FeatureDict) (k q : String) :
    fget (setIf c fs k) q = if k = q then (c || fget fs q) else fget fs q := by
  cases c with
  | false =>
      by_cases h : k = q <;> simp [setIf, h]
  | true =>
      by_cases h : k = q <;> simp [setIf, fget_fset, h]

theorem applyCpuinfoChecks_mk (t : String) (b1 b2 b3 b4 b5 b6 : Bool) :
    applyCpuinfoChecks t (mkLinux b1 b2 b3 b4 b5 b6) =
      mkLinux (b1 || hasTok t "avx512f")
        (b2 || (hasTok t "avx512_vnni" || hasTok t "avx512vnni"))
        (b3 || (hasTok t "avx512_bf16" || hasTok t "avx512bf16"))
        (b4 || hasTok t "amx_bf16") (b5 || hasTok t "amx_tile")
        (b6 || hasTok t "amx_int8") := by
  cases h1 : hasTok t "avx512f" <;>
    cases h2 : (hasTok t "avx512_vnni" || hasTok t "avx512vnni") <;>
    cases h3 : (hasTok t "avx512_bf16" || hasTok t "avx512bf16") <;>
    cases h4 : hasTok t "amx_bf16" <;>
    cases h5 : hasTok t "amx_tile" <;>
    cases h6 : hasTok t "amx_int8" <;>
    simp [applyCpuinfoChecks, setIf, fset, mkLinux, h1, h2, h3, h4, h5, h6]

theorem applyLscpuChecks_mk (t : String) (b1 b2 b3 b4 b5 b6 : Bool) :
    applyLscpuChecks t (mkLinux b1 b2 b3 b4 b5 b6) =
      mkLinux (b1 || hasTok t "avx512f")
        (b2 || (hasTok t "avx512_vnni" || hasTok t "avx512vnni"))
        (b3 || (hasTok t "avx512_bf16" || hasTok t "avx512bf16"))
        (b4 || hasTok t "amx_bf16") b5 b6 := by
  cases h1 : hasTok t "avx512f" <;>
    cases h2 : (hasTok t "avx512_vnni" || hasTok t "avx512vnni") <;>
    cases h3 : (hasTok t "avx512_bf16" || hasTok t "avx512bf16") <;>
    cases h4 : hasTok t "amx_bf16" <;>
    simp [applyLscpuChecks, setIf, fset, mkLinux, h1, h2, h3, h4]

/-- Full characterization of `_detect_linux` as a flag-wise OR of what the two
sources report: the fallback contributes only to the first four flags. -/
theorem detectLinux_eq (ci : Option String) (ls : Option (Int × String)) :
    detectLinux ci ls =
      mkLinux (ciHas ci "avx512f" || lsHas ls "avx512f")
        ((ciHas ci "avx512_vnni" || ciHas ci "avx512vnni")
          || (lsHas ls "avx512_vnni" || lsHas ls "avx512vnni"))
        ((ciHas ci "avx512_bf16" || ciHas ci "avx512bf16")
          || (lsHas ls "avx512_bf16" || lsHas ls "avx512bf16"))
        (ciHas ci "amx_bf16" || lsHas ls "amx_bf16")
        (ciHas ci "amx_tile") (ciHas ci "amx_int8") := by
  cases ci with
  | none =>
      cases ls with
      | none => simp [detectLinux, ciHas, lsHas, linuxInit]
      | some p =>
          obtain ⟨rc, out⟩ := p
          by_cases h : rc = 0 <;>
            simp [detectLinux, ciHas, lsHas, linuxInit, h, applyLscpuChecks_mk]
  | some s =>
      cases ls with
      | none =>
          simp [detectLinux, ciHas, lsHas, linuxInit, applyCpuinfoChecks_mk]
      | some p =>
          obtain ⟨rc, out⟩ := p
          by_cases h : rc = 0 <;>
            simp [detectLinux, ciHas, lsHas, linuxInit, h, applyCpuinfoChecks_mk,
              applyLscpuChecks_mk]

theorem fget_mkLinux_f (b1 b2 b3 b4 b5 b6 : Bool) :
    fget (mkLinux b1 b2 b3 b4 b5 b6) "avx512f" = b1 := by
  simp [mkLinux, fget]

theorem fget_mkLinux_vnni (b1 b2 b3 b4 b5 b6 : Bool) :
    fget (mkLinux b1 b2 b3 b4 b5 b6) "avx512_vnni" = b2 := by
  simp [mkLinux, fget]

theorem fget_mkLinux_bf16 (b1 b2 b3 b4 b5 b6 : Bool) :
    fget (mkLinux b1 b2 b3 b4 b5 b6) "avx512_bf16" = b3 := by
  simp [mkLinux, fget]

theorem fget_mkLinux_amx (b1 b2 b3 b4 b5 b6 : Bool) :
    fget (mkLinux b1 b2 b3 b4 b5 b6) "amx_bf16" = b4 := by
  simp [mkLinux, fget]

theorem fget_mkLinux_tile (b1 b2 b3 b4 b5 b6 : Bool) :
    fget (mkLinux b1 b2 b3 b4 b5 b6) "amx_tile" = b5 := by
  simp [mkLinux, fget]

theorem fget_mkLinux_int8 (b1 b2 b3 b4 b5 b6 : Bool) :
    fget (mkLinux b1 b2 b3 b4 b5 b6) "amx_int8" = b6 := by
  simp [mkLinux, fget]

theorem detectLinux_ne_nil (ci : Option String) (ls : Option (Int × String)) :
    detectLinux ci ls ≠ [] := by
  rw [detectLinux_eq]
  simp [mkLinux]

theorem detectMacos_ne_nil (s : Option (Int × String)) : detectMacos s ≠ [] := by
  cases s with
  | none => simp [detectMacos, mkMac]
  | some p =>
      obtain ⟨rc, out⟩ := p
      by_cases h : rc = 0 <;>
        cases hc : hasTok (strLower out) "avx512" <;>
        simp [detectMacos, mkMac, setIf, fset, h, hc]

theorem detectWindows_ne_nil : detectWindows ≠ [] := by
  simp [detectWindows, mkMac]

/-- Modelled from the spec: the ordered VariantTier catalog of the
recommendation engine, as an explicit list of (predicate, package identifier)
pairs from most to least demanding. -/
def specTiers : List ((FeatureDict → Bool) × String) :=
  [(fun fs => fget fs "amx_bf16" && fget fs "avx512_bf16"
      && fget fs "avx512_vnni", "vllm-cpu-amxbf16"),
   (fun fs => fget fs "avx512_bf16" && fget fs "avx512_vnni",
      "vllm-cpu-avx512bf16"),
   (fun fs => fget fs "avx512_vnni", "vllm-cpu-avx512vnni"),
   (fun fs => fget fs "avx512f", "vllm-cpu-avx512")]

/-- Modelled from the spec: top-down, first-match-wins evaluation of an
ordered tier catalog, with the base package as the terminal fallback. -/
def selectTier : List ((FeatureDict → Bool) × String) → FeatureDict → String
  | [], _ => "vllm-cpu"
  | (p, pkg) :: rest, fs => if p fs then pkg else selectTier rest fs

/-- The run of `main` on a Linux x86_64 host where both Linux sources fail:
every flag is false, yet the exit code is 0 because a non-empty dict is
truthy. -/
def linuxNoSourcesEnv : Env := ⟨"Linux", "x86_64", none, none, none⟩

/-- C1 counterexample: on architecture x86_64 (Linux) with no flags detected,
the process exit code is 0, not the warning status 1 that the claim requires:
`main` tests the truthiness of the feature dict, which is non-empty (six keys,
all false) whenever the OS branch ran at all. -/
theorem C1_counterexample :
    mainExit linuxNoSourcesEnv = 0 ∧
    linuxNoSourcesEnv.machine = "x86_64" ∧
    fget (detect linuxNoSourcesEnv) "avx512f" = false ∧
    fget (detect linuxNoSourcesEnv) "avx512_vnni" = false ∧
    fget (detect linuxNoSourcesEnv) "avx512_bf16" = false ∧
    fget (detect linuxNoSourcesEnv) "amx_bf16" = false ∧
    fget (detect linuxNoSourcesEnv) "amx_tile" = false ∧
    fget (detect linuxNoSourcesEnv) "amx_int8" = false := by decide

/-- C1 (amended): the exit code is 0 exactly when the OS family is one of the
three supported branches (whose feature dicts are non-empty and hence truthy,
regardless of the detected values) or the architecture is ARM-family; the
warning status 1 occurs only on an unsupported OS with a non-ARM machine. -/
theorem C1_exit_amended (e : Env) :
    mainExit e = 0 ↔
      (e.system = "Linux" ∨ e.system = "Darwin" ∨ e.system = "Windows"
        ∨ e.machine = "aarch64" ∨ e.machine = "arm64") := by
  unfold mainExit detect
  by_cases h1 : e.system = "Linux"
  · simp [h1, detectLinux_ne_nil]
  · by_cases h2 : e.system = "Darwin"
    · simp [h1, h2, detectMacos_ne_nil]
    · by_cases h3 : e.system = "Windows"
      · simp [h1, h2, h3, detectWindows_ne_nil]
      · simp [h1, h2, h3]
        tauto

/-- C2: on x86_64, `recommend_package` implements top-down, first-match-wins
evaluation of the ordered four-tier catalog with the base package as the
fallback, for every feature dictionary. -/
theorem C2_tier_table (fs : FeatureDict) :
    recommend_package "x86_64" fs = selectTier specTiers fs := by
  simp [recommend_package, specTiers, selectTier]

/-- C3: on an ARM-family machine (`aarch64` or `arm64`), `recommend_package`
returns the base package for every feature dictionary whatsoever. -/
theorem C3_arm_base (machine : String) (fs : FeatureDict)
    (h : machine = "aarch64" ∨ machine = "arm64") :
    recommend_package machine fs = "vllm-cpu" := by
  rcases h with h | h <;> subst h <;> simp [recommend_package]

theorem C3_arm_base_witness :
    ("aarch64" = "aarch64" ∨ "aarch64" = "arm64") ∧
      recommend_package "aarch64" (mkLinux true true true true true true)
        = "vllm-cpu" :=
  ⟨Or.inl rfl,
   C3_arm_base "aarch64" (mkLinux true true true true true true) (Or.inl rfl)⟩

/-- C4: for every machine string and every feature dictionary,
`recommend_package` returns exactly one of the five catalog identifiers. -/
theorem C4_totality (machine : String) (fs : FeatureDict) :
    recommend_package machine fs ∈
      (["vllm-cpu", "vllm-cpu-avx512", "vllm-cpu-avx512vnni",
        "vllm-cpu-avx512bf16", "vllm-cpu-amxbf16"] : List String) := by
  unfold recommend_package
  split_ifs <;> simp

/-- C5 counterexample: the `lscpu` fallback output is not searched for the
`amx_tile` and `amx_int8` tokens, so a successful fallback run whose output
contains them leaves both flags false, against the claim that all six Linux
flags are OR-merged from both sources with the same per-flag search. -/
theorem C5_counterexample :
    hasTok (strLower "amx_tile amx_int8") "amx_tile" = true ∧
    hasTok (strLower "amx_tile amx_int8") "amx_int8" = true ∧
    fget (detectLinux (some "") (some (0, "amx_tile amx_int8"))) "amx_tile"
      = false ∧
    fget (detectLinux (some "") (some (0, "amx_int8 amx_tile"))) "amx_int8"
      = false := by decide

/-- C5 (amended): `_detect_linux` is the flag-wise OR of what the two sources
report, and merging never clears a set flag, but the fallback command's output
is searched only for the four flags avx512f, avx512_vnni, avx512_bf16 and
amx_bf16; amx_tile and amx_int8 can be set only by the primary CPU-descriptor
text. -/
theorem C5_merge_amended (ci : Option String) (ls : Option (Int × String)) :
    fget (detectLinux ci ls) "avx512f"
      = (ciHas ci "avx512f" || lsHas ls "avx512f") ∧
    fget (detectLinux ci ls) "avx512_vnni"
      = ((ciHas ci "avx512_vnni" || ciHas ci "avx512vnni")
          || (lsHas ls "avx512_vnni" || lsHas ls "avx512vnni")) ∧
    fget (detectLinux ci ls) "avx512_bf16"
      = ((ciHas ci "avx512_bf16" || ciHas ci "avx512bf16")
          || (lsHas ls "avx512_bf16" || lsHas ls "avx512bf16")) ∧
    fget (detectLinux ci ls) "amx_bf16"
      = (ciHas ci "amx_bf16" || lsHas ls "amx_bf16") ∧
    fget (detectLinux ci ls) "amx_tile" = ciHas ci "amx_tile" ∧
    fget (detectLinux ci ls) "amx_int8" = ciHas ci "amx_int8" := by
  rw [detectLinux_eq]
  exact ⟨fget_mkLinux_f .., fget_mkLinux_vnni .., fget_mkLinux_bf16 ..,
    fget_mkLinux_amx .., fget_mkLinux_tile .., fget_mkLinux_int8 ..⟩

/-- C6: when the primary source is unreadable and the fallback command is
missing or timed out, Linux detection still returns its dictionary with all
six flags false (the total function returns a value — no error escapes). -/
theorem C6_all_sources_failed :
    detectLinux none none = linuxInit ∧
    fget (detectLinux none none) "avx512f" = false ∧
    fget (detectLinux none none) "avx512_vnni" = false ∧
    fget (detectLinux none none) "avx512_bf16" = false ∧
    fget (detectLinux none none) "amx_bf16" = false ∧
    fget (detectLinux none none) "amx_tile" = false ∧
    fget (detectLinux none none) "amx_int8" = false := by decide

/-- C7: over the lowercased CPU-descriptor text (fallback absent), the
avx512_vnni flag is set exactly when the text contains "avx512_vnni" or
"avx512vnni", and the avx512_bf16 flag exactly when it contains "avx512_bf16"
or "avx512bf16". -/
theorem C7_two_spellings (txt : String) :
    fget (detectLinux (some txt) none) "avx512_vnni"
      = (hasTok (strLower txt) "avx512_vnni"
          || hasTok (strLower txt) "avx512vnni") ∧
    fget (detectLinux (some txt) none) "avx512_bf16"
      = (hasTok (strLower txt) "avx512_bf16"
          || hasTok (strLower txt) "avx512bf16") := by
  rw [detectLinux_eq]
  constructor
  · rw [fget_mkLinux_vnni]
    simp [ciHas, lsHas]
  · rw [fget_mkLinux_bf16]
    simp [ciHas, lsHas]

/-- C8: the macOS probe can only ever set the baseline wide-vector flag — the
refined flags stay false for every possible command result — and on a
completed command run (return code 0) avx512f is set exactly when the
lowercased output contains "avx512". -/
theorem C8_macos_baseline_only :
    (∀ s : Option (Int × String),
        fget (detectMacos s) "avx512_vnni" = false ∧
        fget (detectMacos s) "avx512_bf16" = false ∧
        fget (detectMacos s) "amx_bf16" = false) ∧
    (∀ out : String,
        fget (detectMacos (some (0, out))) "avx512f"
          = hasTok (strLower out) "avx512") := by
  constructor
  · intro s
    cases s with
    | none => simp [detectMacos, mkMac, fget]
    | some p =>
        obtain ⟨rc, out⟩ := p
        by_cases h : rc = 0 <;>
          cases hc : hasTok (strLower out) "avx512" <;>
          simp [detectMacos, mkMac, setIf, fset, fget, h, hc]
  · intro out
    cases hc : hasTok (strLower out) "avx512" <;>
      simp [detectMacos, mkMac, setIf, fset, fget, hc]

/-- C9: the flag-wise OR merge is idempotent, commutative and associative, and
applying either data source's checks to a feature dictionary twice yields the
same dictionary as applying them once. -/
theorem C9_merge_algebra :
    (∀ a : FeatureSet, a.union a = a) ∧
    (∀ a b : FeatureSet, a.union b = b.union a) ∧
    (∀ a b c : FeatureSet, (a.union b).union c = a.union (b.union c)) ∧
    (∀ (t : String) (b1 b2 b3 b4 b5 b6 : Bool),
        applyLscpuChecks t (applyLscpuChecks t (mkLinux b1 b2 b3 b4 b5 b6))
          = applyLscpuChecks t (mkLinux b1 b2 b3 b4 b5 b6)) ∧
    (∀ (t : String) (b1 b2 b3 b4 b5 b6 : Bool),
        applyCpuinfoChecks t (applyCpuinfoChecks t (mkLinux b1 b2 b3 b4 b5 b6))
          = applyCpuinfoChecks t (mkLinux b1 b2 b3 b4 b5 b6)) := by
  refine ⟨?_, ?_, ?_, ?_, ?_⟩
  · intro a
    cases a
    simp [FeatureSet.union]
  · intro a b
    cases a
    cases b
    simp [FeatureSet.union, Bool.or_comm]
  · intro a b c
    cases a
    cases b
    cases c
    simp [FeatureSet.union, Bool.or_assoc]
  · intro t b1 b2 b3 b4 b5 b6
    rw [applyLscpuChecks_mk, applyLscpuChecks_mk]
    simp [Bool.or_assoc]
  · intro t b1 b2 b3 b4 b5 b6
    rw [applyCpuinfoChecks_mk, applyCpuinfoChecks_mk]
    simp [Bool.or_assoc]

/-- C10: the amx_tile and amx_int8 flags never influence the recommendation:
any two feature dictionaries that agree on avx512f, avx512_vnni, avx512_bf16
and amx_bf16 yield the same package for every machine string. -/
theorem C10_amx_tile_int8_irrelevant (machine : String)
    (fs1 fs2 : FeatureDict)
    (h1 : fget fs1 "avx512f" = fget fs2 "avx512f")
    (h2 : fget fs1 "avx512_vnni" = fget fs2 "avx512_vnni")
    (h3 : fget fs1 "avx512_bf16" = fget fs2 "avx512_bf16")
    (h4 : fget fs1 "amx_bf16" = fget fs2 "amx_bf16") :
    recommend_package machine fs1 = recommend_package machine fs2 := by
  simp [recommend_package, h1, h2, h3, h4]

theorem C10_witness :
    (fget (mkLinux true false false false true false) "avx512f"
        = fget (mkLinux true false false false false true) "avx512f") ∧
    (fget (mkLinux true false false false true false) "avx512_vnni"
        = fget (mkLinux true false false false false true) "avx512_vnni") ∧
    (fget (mkLinux true false false false true false) "avx512_bf16"
        = fget (mkLinux true false false false false true) "avx512_bf16") ∧
    (fget (mkLinux true false false false true false) "amx_bf16"
        = fget (mkLinux true false false false false true) "amx_bf16") ∧
    recommend_package "x86_64" (mkLinux true false false false true false)
      = recommend_package "x86_64" (mkLinux true false false false false true) :=
  ⟨by decide, by decide, by decide, by decide,
   C10_amx_tile_int8_irrelevant "x86_64"
     (mkLinux true false false false true false)
     (mkLinux true false false false false true)
     (by decide) (by decide) (by decide) (by decide)⟩
